import Mathlib

/-!
Verification of the mtress stratified multi-layer thermal-storage model and
heat-pump COP engine.  The Python sources are shallowly embedded:

* `meta_model/physics.py` — exact rational arithmetic, embedded over `ℚ`
  (the Python code is plain field arithmetic with `max`/`min` clamps);
* `mtress/physics/_helper_functions.py` — embedded over `ℝ` because
  `mean_logarithmic_temperature` uses the natural logarithm;
* `meta_model/layered_heat/_multi_layer_storage.py` — the
  `MultiLayerStorage` constructor and its shared-limit constraint,
  embedded over `ℚ`, with the external thermal-loss estimator passed in
  as a function parameter and the external optimisation model as an
  explicit list of registered constraints.

Python floating point is modelled by exact `ℚ`/`ℝ` arithmetic throughout.
-/

namespace meta_model

/-- Python `ZERO_CELSIUS = 273.15` (K), from `meta_model/physics.py`. -/
def ZERO_CELSIUS : ℚ := 273.15

/-- Python `H2O_HEAT_CAPACITY = 4.182` kJ/(kg·K), from `meta_model/physics.py`. -/
def H2O_HEAT_CAPACITY : ℚ := 4.182

/-- Python `H2O_DENSITY = 1000` kg/m³, from `meta_model/physics.py`. -/
def H2O_DENSITY : ℚ := 1000

/-- Python `TC_INSULATION = 0.04` W/(m·K), from `meta_model/physics.py`. -/
def TC_INSULATION : ℚ := 0.04

/-- Python `SECONDS_PER_HOUR = 3600`, from `meta_model/physics.py`. -/
def SECONDS_PER_HOUR : ℚ := 3600

/-- Python `kilo_to_mega(arg) = arg/1000`, from `meta_model/physics.py`. -/
def kilo_to_mega (arg : ℚ) : ℚ := arg / 1000

/-- Python `celsius_to_kelvin(arg) = ZERO_CELSIUS + arg`, from `meta_model/physics.py`. -/
def celsius_to_kelvin (arg : ℚ) : ℚ := ZERO_CELSIUS + arg

/-- Python `kelvin_to_celsius(arg) = arg - ZERO_CELSIUS`, from `meta_model/physics.py`. -/
def kelvin_to_celsius (arg : ℚ) : ℚ := arg - ZERO_CELSIUS

/-- Python `kJ_to_MWh(arg) = kilo_to_mega(arg / SECONDS_PER_HOUR)`, from
`meta_model/physics.py`. -/
def kJ_to_MWh (arg : ℚ) : ℚ := kilo_to_mega (arg / SECONDS_PER_HOUR)

/-- Python `carnot_efficiency(temp_in, temp_out) = temp_out / max(temp_out - temp_in, 1e-3)`
(scalar path of `meta_model/physics.py`, lines 55–59). -/
def carnot_efficiency (temp_in temp_out : ℚ) : ℚ :=
  temp_out / max (temp_out - temp_in) (1 / 1000)

/-- Python `calc_cop(temp_source, temp_target)` from `meta_model/physics.py`
(lines 62–88), scalar path: the Carnot estimate times the correction
factor `cpf`, clipped from above at `cop_norm = 4.7`. -/
def calc_cop (temp_source temp_target : ℚ) : ℚ :=
  let cop_norm : ℚ := 4.7
  let temp_source_norm := celsius_to_kelvin 0
  let temp_target_norm := celsius_to_kelvin 35
  let cpf := 1 / carnot_efficiency temp_source_norm temp_target_norm * cop_norm
  min (carnot_efficiency temp_source temp_target * cpf) cop_norm

/-- Python `calc_cop` with an array `temp_target` (the numpy broadcast path of
`meta_model/physics.py`): `temp_in` is broadcast by `np.full`,
`np.minimum` clips elementwise against `np.full(len(temp_target), cop_norm)`. -/
def calc_cop_array (temp_source : ℚ) (temp_target : List ℚ) : List ℚ :=
  let cop_norm : ℚ := 4.7
  let temp_source_norm := celsius_to_kelvin 0
  let temp_target_norm := celsius_to_kelvin 35
  let cpf := 1 / carnot_efficiency temp_source_norm temp_target_norm * cop_norm
  temp_target.map (fun t => min (carnot_efficiency temp_source t * cpf) cop_norm)

end meta_model

namespace layered_heat

open meta_model

/-- Decimal digit characters, used to spell out Python's decimal formatting
of an integer. -/
def digit_char : Nat → Char
  | 0 => '0'
  | 1 => '1'
  | 2 => '2'
  | 3 => '3'
  | 4 => '4'
  | 5 => '5'
  | 6 => '6'
  | 7 => '7'
  | 8 => '8'
  | 9 => '9'
  | _ => '*'

/-- Standard decimal representation of a natural number (most significant
digit first), as produced by Python's integer formatting. -/
def nat_decimal (n : Nat) : String :=
  if n = 0 then "0" else ((Nat.digits 10 n).reverse.map digit_char).asString

/-- Round-half-to-even of a rational, the rounding used by Python's
Python's `.0f` string formatting on an exactly representable value. -/
def round_half_even (q : ℚ) : ℤ :=
  let f := ⌊q⌋
  let r := q - f
  if r < 1 / 2 then f
  else if 1 / 2 < r then f + 1
  else if f % 2 = 0 then f else f + 1

/-- Python percent-style `.0f` formatting of `x`: the rounded value in
decimal, a minus sign shown exactly when `x` is negative (Python prints
`-0` for small negatives). -/
def format_f0 (x : ℚ) : String :=
  (if x < 0 then "-" else "") ++ nat_decimal (round_half_even |x|).toNat

/-- Python `storage_label`: the prefix `s_heat_` followed by the `.0f`
formatting of the temperature, from `MultiLayerStorage.__init__`
(lines 52–53). -/
def storage_label (temperature : ℚ) : String :=
  "s_heat_" ++ format_f0 temperature

/-- The `HeatLayers` collaborator: ordered temperature levels and the
reference temperature.  The per-level bus `b_th[T]` is modelled by keying
each storage on its temperature. -/
structure HeatLayers where
  temperature_levels : List ℚ
  reference_temperature : ℚ
deriving DecidableEq

/-- A `solph.GenericStorage` as declared by `MultiLayerStorage.__init__`:
label, bound bus (keyed by its temperature level), nominal capacity and the
three loss parameters. -/
structure GenericStorage where
  label : String
  bus : ℚ
  nominal_storage_capacity : ℚ
  loss_rate : ℚ
  fixed_losses_relative : ℚ
  fixed_losses_absolute : ℚ
deriving DecidableEq

/-- The external thermal-loss estimator
(`thermal.stratified_thermal_storage.calculate_losses`): from
(u_value, diameter, temp_h, temp_c, temp_env) to
(loss_rate, fixed_losses_relative, fixed_losses_absolute). -/
def LossEstimator : Type := ℚ → ℚ → ℚ → ℚ → ℚ → ℚ × ℚ × ℚ

structure MultiLayerStorage where
  heat_storage_volume : ℚ
  heat_storage_insulation : ℚ
  temperature_levels : List ℚ
  reference_temperature : ℚ
  h_storage_comp : List GenericStorage
deriving DecidableEq

/-- Body of `MultiLayerStorage.__init__` (lines 28–88): per temperature
level, compute the label, the nominal capacity
`volume * kJ_to_MWh((celsius_to_kelvin(T) - reference) * H2O_DENSITY * H2O_HEAT_CAPACITY)`,
the three loss parameters (zero when `insulation_thickness <= 0`, else from
the external estimator at u-value `TC_INSULATION / insulation_thickness`),
and register the storage. -/
def MultiLayerStorage.construct (diameter volume insulation_thickness
    ambient_temperature : ℚ) (heat_layers : HeatLayers)
    (calculate_losses : LossEstimator) : MultiLayerStorage :=
  { heat_storage_volume := volume
    heat_storage_insulation := insulation_thickness
    temperature_levels := heat_layers.temperature_levels
    reference_temperature := heat_layers.reference_temperature
    h_storage_comp := heat_layers.temperature_levels.map (fun temperature =>
      let hs_capacity := volume *
        kJ_to_MWh ((celsius_to_kelvin temperature
          - heat_layers.reference_temperature) * H2O_DENSITY * H2O_HEAT_CAPACITY)
      let losses :=
        if insulation_thickness ≤ 0 then ((0 : ℚ), (0 : ℚ), (0 : ℚ))
        else calculate_losses (TC_INSULATION / insulation_thickness) diameter
          temperature heat_layers.reference_temperature ambient_temperature
      { label := storage_label temperature
        bus := temperature
        nominal_storage_capacity := hs_capacity
        loss_rate := losses.1
        fixed_losses_relative := losses.2.1
        fixed_losses_absolute := losses.2.2 }) }

/-- Python `MultiLayerStorage.__init__` as a fallible call: the Python constructor
contains no validation and no `raise`, so the embedding always returns
`Except.ok` of the constructed object.  (`Except.error` is the image of a
Python exception, the shape a construction-time rejection would take.) -/
def MultiLayerStorage.init (diameter volume insulation_thickness
    ambient_temperature : ℚ) (heat_layers : HeatLayers)
    (calculate_losses : LossEstimator) : Except String MultiLayerStorage :=
  Except.ok (MultiLayerStorage.construct diameter volume insulation_thickness
    ambient_temperature heat_layers calculate_losses)

/-- A named weighted-sum inequality
`Σ_i weights_i * stored_energy_i(t) ≤ upper_limit` over the given storage
components, as registered with the optimisation model. -/
structure SharedLimitConstraint where
  quantity_name : String
  components : List GenericStorage
  weights : List ℚ
  upper_limit : ℚ
deriving DecidableEq

/-- Modelled from the spec: `solph.constraints.shared_limit` of the external
optimisation-model collaborator (§6) "accepts a named weighted-sum
inequality over a named set of storage stored-energy quantities with an
upper bound"; registering appends one such constraint to the model. -/
def solph_shared_limit (model : List SharedLimitConstraint) (name : String)
    (components : List GenericStorage) (weights : List ℚ) (upper_limit : ℚ) :
    List SharedLimitConstraint :=
  model ++ [{ quantity_name := name, components := components,
              weights := weights, upper_limit := upper_limit }]

/-- The `w_factor` list of `MultiLayerStorage.add_shared_limit`
(lines 94–98): per level,
`1 / kilo_to_mega(H2O_HEAT_CAPACITY * H2O_DENSITY * (celsius_to_kelvin(T) - reference))`. -/
def MultiLayerStorage.w_factor (s : MultiLayerStorage) : List ℚ :=
  s.temperature_levels.map (fun temp =>
    1 / kilo_to_mega (H2O_HEAT_CAPACITY * H2O_DENSITY *
      (celsius_to_kelvin temp - s.reference_temperature)))

/-- Python `MultiLayerStorage.add_shared_limit` (lines 90–103): registers the
`'storage_limit'` inequality over all of the tank's storages, with weights
`w_factor` and upper limit the tank's physical volume. -/
def MultiLayerStorage.add_shared_limit (s : MultiLayerStorage)
    (model : List SharedLimitConstraint) : List SharedLimitConstraint :=
  solph_shared_limit model "storage_limit" s.h_storage_comp s.w_factor
    s.heat_storage_volume

end layered_heat

namespace mtress

/-- Modelled from the spec: `ZERO_CELSIUS` comes from
`mtress/physics/_constants.py`, which is not among the sources; §4.1 of the
spec fixes `celsius_to_kelvin(c) = c + 273.15`. -/
def ZERO_CELSIUS : ℝ := 273.15

/-- Modelled from the spec: `SECONDS_PER_HOUR` comes from
`mtress/physics/_constants.py`, which is not among the sources; §4.1 of the
spec fixes `kJ_to_MWh(x) = x / 3600 / 1000`. -/
def SECONDS_PER_HOUR : ℝ := 3600

/-- Python `kilo_to_mega(arg) = arg/1000`, from `mtress/physics/_helper_functions.py`. -/
noncomputable def kilo_to_mega (arg : ℝ) : ℝ := arg / 1000

/-- Python `celsius_to_kelvin(arg) = ZERO_CELSIUS + arg`, from
`mtress/physics/_helper_functions.py`. -/
noncomputable def celsius_to_kelvin (arg : ℝ) : ℝ := ZERO_CELSIUS + arg

/-- Python `kelvin_to_celsius(arg) = arg - ZERO_CELSIUS`, from
`mtress/physics/_helper_functions.py`. -/
noncomputable def kelvin_to_celsius (arg : ℝ) : ℝ := arg - ZERO_CELSIUS

/-- Python `kJ_to_MWh(arg) = kilo_to_mega(arg / SECONDS_PER_HOUR)`, from
`mtress/physics/_helper_functions.py`. -/
noncomputable def kJ_to_MWh (arg : ℝ) : ℝ := kilo_to_mega (arg / SECONDS_PER_HOUR)

/-- Python `mean_logarithmic_temperature(t_high, t_low)`, equal to
`(t_low - t_high) / ln(t_low / t_high)`
(`mtress/physics/_helper_functions.py`, lines 47–56). -/
noncomputable def mean_logarithmic_temperature (t_high t_low : ℝ) : ℝ :=
  (t_low - t_high) / Real.log (t_low / t_high)

/-- Python `lorenz_cop(temp_in, temp_out) = temp_out / max(temp_out - temp_in, 1e-3)`
(`mtress/physics/_helper_functions.py`, lines 59–71). -/
noncomputable def lorenz_cop (temp_in temp_out : ℝ) : ℝ :=
  temp_out / max (temp_out - temp_in) (1 / 1000)

/-- Python `calc_cop` (`mtress/physics/_helper_functions.py`, lines 74–119).  The
optional low-side temperatures are tested with Python truthiness
(`if not temp_input_low`): both `None` and `0` select the high bound, any
other supplied value is reduced with the log-mean.  `cop_0_35` is the
calibration constant (Python default `4.6`), passed explicitly here. -/
noncomputable def calc_cop (temp_input_high temp_output_high : ℝ)
    (temp_input_low temp_output_low : Option ℝ) (cop_0_35 : ℝ) : ℝ :=
  let temp_input :=
    match temp_input_low with
    | none => temp_input_high
    | some v =>
        if v = 0 then temp_input_high
        else mean_logarithmic_temperature temp_input_high v
  let temp_output :=
    match temp_output_low with
    | none => temp_output_high
    | some v =>
        if v = 0 then temp_output_high
        else mean_logarithmic_temperature temp_output_high v
  let temp_input_high_norm := celsius_to_kelvin 0
  let temp_input_low_norm := celsius_to_kelvin (-3)
  let temp_output_high_norm := celsius_to_kelvin 35
  let temp_output_low_norm := celsius_to_kelvin 30
  let temp_input_norm :=
    mean_logarithmic_temperature temp_input_high_norm temp_input_low_norm
  let temp_output_norm :=
    mean_logarithmic_temperature temp_output_high_norm temp_output_low_norm
  let cpf := cop_0_35 / lorenz_cop temp_input_norm temp_output_norm
  cpf * lorenz_cop temp_input temp_output

/-- The spec's per-side glide reduction, with the dispatch amended to match
Python truthiness: a supplied low-side bound is reduced to the log-mean
only when it is nonzero; `None` or `0` select the high bound directly. -/
noncomputable def effective_temperature (t_high : ℝ) (t_low : Option ℝ) : ℝ :=
  match t_low with
  | none => t_high
  | some v =>
      if v = 0 then t_high else mean_logarithmic_temperature t_high v

end mtress

/-- On the clamp-free domain `t_out > t_in + 1e-3`, `carnot_efficiency`
is `t_out / (t_out - t_in)`. -/
lemma meta_carnot_of_gt {t_in t_out : ℚ} (h : t_in + 1 / 1000 < t_out) :
    meta_model.carnot_efficiency t_in t_out = t_out / (t_out - t_in) := by
  unfold meta_model.carnot_efficiency
  rw [max_eq_left (by linarith)]

/-- The log-mean of the reference condenser glide (35 °C down to 30 °C, in
Kelvin) is positive: both the glide difference and the log of the ratio
(which lies in (0,1)) are negative. -/
lemma mlt_condenser_norm_pos :
    0 < mtress.mean_logarithmic_temperature (mtress.celsius_to_kelvin 35)
      (mtress.celsius_to_kelvin 30) := by
  unfold mtress.mean_logarithmic_temperature mtress.celsius_to_kelvin
    mtress.ZERO_CELSIUS
  have hlog : Real.log ((273.15 + 30) / (273.15 + 35)) < 0 :=
    Real.log_neg (by norm_num) (by norm_num)
  rw [div_pos_iff]
  right
  exact ⟨by norm_num, hlog⟩

/-- The reference Lorenz COP `lorenz_cop(norm_in, norm_out)` is positive:
its numerator is the positive condenser log-mean and its clamped
denominator is at least 1e-3. -/
lemma lorenz_norm_pos :
    0 < mtress.lorenz_cop
      (mtress.mean_logarithmic_temperature (mtress.celsius_to_kelvin 0)
        (mtress.celsius_to_kelvin (-3)))
      (mtress.mean_logarithmic_temperature (mtress.celsius_to_kelvin 35)
        (mtress.celsius_to_kelvin 30)) := by
  unfold mtress.lorenz_cop
  exact div_pos mlt_condenser_norm_pos
    (lt_of_lt_of_le (by norm_num) (le_max_right _ _))

/-- C4 (counterexample): the claim that `carnot_efficiency` is monotonically
non-decreasing in `t_out` (with `t_in` fixed, on `t_out > t_in + 1e-3`) is
false: at `t_in = 273`, `t_out1 = 300`, `t_out2 = 350` (both above
`t_in + 1e-3`), the value strictly decreases. -/
theorem carnot_monotone_claim_false :
    (273 : ℚ) + 1 / 1000 < 300 ∧ (300 : ℚ) < 350 ∧
      meta_model.carnot_efficiency 273 350 < meta_model.carnot_efficiency 273 300 := by
  refine ⟨by norm_num, by norm_num, ?_⟩
  unfold meta_model.carnot_efficiency
  norm_num

/-- C4 (amended): for a fixed non-negative `t_in` (all temperatures here are
in Kelvin, hence non-negative), `carnot_efficiency t_in t_out` is monotonically
non-INCREASING as `t_out` increases on the domain `t_out > t_in + 1e-3`. -/
theorem carnot_efficiency_antitone (t_in a b : ℚ) (h0 : 0 ≤ t_in)
    (ha : t_in + 1 / 1000 < a) (hab : a ≤ b) :
    meta_model.carnot_efficiency t_in b ≤ meta_model.carnot_efficiency t_in a := by
  have hb : t_in + 1 / 1000 < b := lt_of_lt_of_le ha hab
  rw [meta_carnot_of_gt ha, meta_carnot_of_gt hb]
  have hda : 0 < a - t_in := by linarith
  have hdb : 0 < b - t_in := by linarith
  rw [div_le_div_iff₀ hdb hda]
  nlinarith

/-- Witness for C4 (amended) at `t_in = 273`, `a = 300`, `b = 350`. -/
theorem carnot_efficiency_antitone_witness :
    (0 : ℚ) ≤ 273 ∧ (273 : ℚ) + 1 / 1000 < 300 ∧ (300 : ℚ) ≤ 350 ∧
      meta_model.carnot_efficiency 273 350 ≤ meta_model.carnot_efficiency 273 300 :=
  ⟨by norm_num, by norm_num, by norm_num,
    carnot_efficiency_antitone 273 300 350 (by norm_num) (by norm_num) (by norm_num)⟩

/-- C6: `add_shared_limit` registers exactly one inequality for the tank —
named `'storage_limit'`, over exactly the tank's storage components, with
upper limit the tank's total physical volume, and one weight per
temperature level equal to
`1 / kilo_to_mega(H2O_HEAT_CAPACITY * H2O_DENSITY * (celsius_to_kelvin(T) - reference))`. -/
theorem add_shared_limit_spec (s : layered_heat.MultiLayerStorage)
    (model : List layered_heat.SharedLimitConstraint) :
    s.add_shared_limit model =
      model ++ [⟨"storage_limit", s.h_storage_comp,
        s.temperature_levels.map (fun temp =>
          1 / meta_model.kilo_to_mega (meta_model.H2O_HEAT_CAPACITY *
            meta_model.H2O_DENSITY *
            (meta_model.celsius_to_kelvin temp - s.reference_temperature))),
        s.heat_storage_volume⟩] ∧
      (s.add_shared_limit model).length = model.length + 1 ∧
      s.w_factor.length = s.temperature_levels.length := by
  refine ⟨rfl, ?_, ?_⟩
  · simp [layered_heat.MultiLayerStorage.add_shared_limit,
      layered_heat.solph_shared_limit]
  · simp [layered_heat.MultiLayerStorage.w_factor]

/-- C7: whenever the insulation thickness is ≤ 0, every constructed
`StorageLayer` has all three loss parameters exactly zero, regardless of
diameter, volume, ambient temperature, temperature levels, or the external
loss estimator. -/
theorem mls_losses_zero_of_no_insulation
    (diameter volume insulation_thickness ambient_temperature : ℚ)
    (heat_layers : layered_heat.HeatLayers)
    (calculate_losses : layered_heat.LossEstimator)
    (h : insulation_thickness ≤ 0) :
    ((layered_heat.MultiLayerStorage.construct diameter volume
        insulation_thickness ambient_temperature heat_layers
        calculate_losses).h_storage_comp).map
      (fun l => (l.loss_rate, l.fixed_losses_relative, l.fixed_losses_absolute)) =
    List.replicate heat_layers.temperature_levels.length
      ((0 : ℚ), (0 : ℚ), (0 : ℚ)) := by
  simp only [layered_heat.MultiLayerStorage.construct, List.map_map]
  rw [List.eq_replicate_iff]
  constructor
  · simp
  · intro p hp
    simp only [List.mem_map, Function.comp] at hp
    obtain ⟨T, _, rfl⟩ := hp
    simp [if_pos h]

/-- Witness for C7: a two-level tank with zero insulation and a loss
estimator that would return nonzero losses. -/
theorem mls_losses_zero_of_no_insulation_witness :
    (0 : ℚ) ≤ 0 ∧
    ((layered_heat.MultiLayerStorage.construct 2 10 0 10 ⟨[40, 60], 293.15⟩
        (fun _ _ _ _ _ => (1, 2, 3))).h_storage_comp).map
      (fun l => (l.loss_rate, l.fixed_losses_relative, l.fixed_losses_absolute)) =
    List.replicate ([(40 : ℚ), 60] : List ℚ).length ((0 : ℚ), (0 : ℚ), (0 : ℚ)) :=
  ⟨le_refl 0,
    mls_losses_zero_of_no_insulation 2 10 0 10 ⟨[40, 60], 293.15⟩
      (fun _ _ _ _ _ => (1, 2, 3)) (le_refl 0)⟩

/-- C3 (counterexample): a configuration whose single level (50 °C, i.e.
323.15 K) lies strictly below the reference temperature (400 K) is NOT
rejected at construction time: `__init__` contains no validation, the
construction succeeds, the storage is registered, and its negative nominal
capacity is passed through unclamped. -/
theorem mls_rejection_claim_false :
    (layered_heat.MultiLayerStorage.init 1 1 0 10 ⟨[50], 400⟩
        (fun _ _ _ _ _ => (0, 0, 0))).isOk = true ∧
    meta_model.celsius_to_kelvin 50 < 400 ∧
    ((layered_heat.MultiLayerStorage.construct 1 1 0 10 ⟨[50], 400⟩
        (fun _ _ _ _ _ => (0, 0, 0))).h_storage_comp).map
      (fun l => l.nominal_storage_capacity) = [-(1071289 / 12000000)] := by
  refine ⟨rfl, ?_, ?_⟩
  · norm_num [meta_model.celsius_to_kelvin, meta_model.ZERO_CELSIUS]
  · norm_num [layered_heat.MultiLayerStorage.construct,
      meta_model.celsius_to_kelvin, meta_model.ZERO_CELSIUS,
      meta_model.kJ_to_MWh, meta_model.kilo_to_mega,
      meta_model.SECONDS_PER_HOUR, meta_model.H2O_DENSITY,
      meta_model.H2O_HEAT_CAPACITY]

/-- C3 (amended): the constructor performs no validation at all —
construction always succeeds, for every configuration valid or not, and
each registered storage carries the raw capacity formula value (which is
non-positive for a level not above the reference), with no clamping. -/
theorem mls_init_never_rejects
    (diameter volume insulation_thickness ambient_temperature : ℚ)
    (heat_layers : layered_heat.HeatLayers)
    (calculate_losses : layered_heat.LossEstimator) :
    (layered_heat.MultiLayerStorage.init diameter volume insulation_thickness
        ambient_temperature heat_layers calculate_losses).isOk = true ∧
    ((layered_heat.MultiLayerStorage.construct diameter volume
        insulation_thickness ambient_temperature heat_layers
        calculate_losses).h_storage_comp).map
      (fun l => l.nominal_storage_capacity) =
      heat_layers.temperature_levels.map (fun temperature =>
        volume * meta_model.kJ_to_MWh
          ((meta_model.celsius_to_kelvin temperature
            - heat_layers.reference_temperature) * meta_model.H2O_DENSITY *
            meta_model.H2O_HEAT_CAPACITY)) := by
  refine ⟨rfl, ?_⟩
  simp [layered_heat.MultiLayerStorage.construct, List.map_map]

/-- Each weight times its level's nominal capacity collapses to
`volume / 3600` (exact rational arithmetic), provided the level lies
strictly above the reference temperature. -/
lemma w_times_capacity (volume ref T : ℚ)
    (h : ref < meta_model.celsius_to_kelvin T) :
    (1 / meta_model.kilo_to_mega (meta_model.H2O_HEAT_CAPACITY *
        meta_model.H2O_DENSITY *
        (meta_model.celsius_to_kelvin T - ref))) *
      (volume * meta_model.kJ_to_MWh ((meta_model.celsius_to_kelvin T - ref) *
        meta_model.H2O_DENSITY * meta_model.H2O_HEAT_CAPACITY)) =
    volume / 3600 := by
  have hd : meta_model.celsius_to_kelvin T - ref ≠ 0 := sub_ne_zero.mpr (ne_of_gt h)
  unfold meta_model.kilo_to_mega meta_model.kJ_to_MWh meta_model.H2O_DENSITY
    meta_model.H2O_HEAT_CAPACITY meta_model.SECONDS_PER_HOUR
  rw [meta_model.kilo_to_mega]
  field_simp
  ring

/-- C1 (counterexample): for the valid tank with levels 40 °C and 60 °C,
reference 293.15 K and volume 1 m³, the sum over levels of
`w_i × capacity_i` is `1/1800`, not the tank's volume 1 — each term is
`volume/3600`, so the sum is `(number of levels) × volume / 3600`. -/
theorem shared_limit_roundtrip_claim_false :
    List.Chain' (· < ·) ([(40 : ℚ), 60]) ∧
    (293.15 : ℚ) < meta_model.celsius_to_kelvin 40 ∧
    (293.15 : ℚ) < meta_model.celsius_to_kelvin 60 ∧
    (0 : ℚ) < 1 ∧
    (List.zipWith (· * ·)
        (layered_heat.MultiLayerStorage.construct 1 1 0 10 ⟨[40, 60], 293.15⟩
          (fun _ _ _ _ _ => (0, 0, 0))).w_factor
        ((layered_heat.MultiLayerStorage.construct 1 1 0 10 ⟨[40, 60], 293.15⟩
          (fun _ _ _ _ _ => (0, 0, 0))).h_storage_comp.map
          (fun l => l.nominal_storage_capacity))).sum = 1 / 1800 ∧
    (1 / 1800 : ℚ) ≠ 1 := by
  refine ⟨?_, ?_, ?_, ?_, ?_, ?_⟩
  · simp
    norm_num
  · norm_num [meta_model.celsius_to_kelvin, meta_model.ZERO_CELSIUS]
  · norm_num [meta_model.celsius_to_kelvin, meta_model.ZERO_CELSIUS]
  · norm_num
  · norm_num [layered_heat.MultiLayerStorage.construct,
      layered_heat.MultiLayerStorage.w_factor,
      meta_model.celsius_to_kelvin, meta_model.ZERO_CELSIUS,
      meta_model.kJ_to_MWh, meta_model.kilo_to_mega,
      meta_model.SECONDS_PER_HOUR, meta_model.H2O_DENSITY,
      meta_model.H2O_HEAT_CAPACITY]
  · norm_num

/-- C1 (amended): for every valid tank (strictly ascending levels, all
strictly above the reference temperature, positive volume), the sum over
levels of `w_i × capacity_i` equals `(number of levels) × volume / 3600` —
each level's weighted capacity is `volume/3600`, not `volume`, because the
weights convert megajoules while the capacities are in megawatt-hours. -/
theorem shared_limit_roundtrip_amended
    (diameter volume insulation_thickness ambient_temperature ref : ℚ)
    (levels : List ℚ) (calculate_losses : layered_heat.LossEstimator)
    (hasc : List.Chain' (· < ·) levels)
    (habove : ∀ T ∈ levels, ref < meta_model.celsius_to_kelvin T)
    (hvol : 0 < volume) :
    (List.zipWith (· * ·)
        (layered_heat.MultiLayerStorage.construct diameter volume
          insulation_thickness ambient_temperature ⟨levels, ref⟩
          calculate_losses).w_factor
        ((layered_heat.MultiLayerStorage.construct diameter volume
          insulation_thickness ambient_temperature ⟨levels, ref⟩
          calculate_losses).h_storage_comp.map
          (fun l => l.nominal_storage_capacity))).sum =
      (levels.length : ℚ) * (volume / 3600) := by
  have hw : (layered_heat.MultiLayerStorage.construct diameter volume
      insulation_thickness ambient_temperature ⟨levels, ref⟩
      calculate_losses).w_factor =
      levels.map (fun T =>
        1 / meta_model.kilo_to_mega (meta_model.H2O_HEAT_CAPACITY *
          meta_model.H2O_DENSITY *
          (meta_model.celsius_to_kelvin T - ref))) := rfl
  have hc : ((layered_heat.MultiLayerStorage.construct diameter volume
      insulation_thickness ambient_temperature ⟨levels, ref⟩
      calculate_losses).h_storage_comp.map
      (fun l => l.nominal_storage_capacity)) =
      levels.map (fun T =>
        volume * meta_model.kJ_to_MWh ((meta_model.celsius_to_kelvin T - ref) *
          meta_model.H2O_DENSITY * meta_model.H2O_HEAT_CAPACITY)) := by
    simp [layered_heat.MultiLayerStorage.construct, List.map_map]
  rw [hw, hc]
  clear hw hc hasc
  induction levels with
  | nil => simp
  | cons T rest ih =>
    simp only [List.map_cons, List.zipWith_cons_cons, List.sum_cons,
      List.length_cons]
    rw [w_times_capacity volume ref T (habove T (List.mem_cons_self T rest)),
      ih (fun x hx => habove x (List.mem_cons_of_mem T hx))]
    push_cast
    ring

/-- Witness for C1 (amended): the valid tank with levels 40 °C and 60 °C,
reference 293.15 K and volume 2 m³ gives total weighted capacity
`2 × (2/3600) = 1/900`. -/
theorem shared_limit_roundtrip_amended_witness :
    (List.zipWith (· * ·)
        (layered_heat.MultiLayerStorage.construct 1 2 0 10 ⟨[40, 60], 293.15⟩
          (fun _ _ _ _ _ => (0, 0, 0))).w_factor
        ((layered_heat.MultiLayerStorage.construct 1 2 0 10 ⟨[40, 60], 293.15⟩
          (fun _ _ _ _ _ => (0, 0, 0))).h_storage_comp.map
          (fun l => l.nominal_storage_capacity))).sum =
      (([(40 : ℚ), 60] : List ℚ).length : ℚ) * (2 / 3600) :=
  shared_limit_roundtrip_amended 1 2 0 10 293.15 [40, 60]
    (fun _ _ _ _ _ => (0, 0, 0)) (by simp; norm_num)
    (by
      intro T hT
      simp only [List.mem_cons, List.not_mem_nil, or_false] at hT
      rcases hT with rfl | rfl <;>
        norm_num [meta_model.celsius_to_kelvin, meta_model.ZERO_CELSIUS])
    (by norm_num)

/-- C10: every COP value returned by the meta-model `calc_cop` — scalar or
array input — is at most `cop_norm = 4.7`: the Carnot-based estimate times
the correction factor is clipped from above at that constant. -/
theorem meta_calc_cop_le_cop_norm (temp_source temp_target : ℚ)
    (temp_targets : List ℚ) :
    meta_model.calc_cop temp_source temp_target ≤ 4.7 ∧
      (meta_model.calc_cop_array temp_source temp_targets).all
        (fun c => decide (c ≤ 4.7)) = true := by
  constructor
  · exact min_le_right _ _
  · rw [List.all_eq_true]
    intro c hc
    unfold meta_model.calc_cop_array at hc
    simp only [List.mem_map] at hc
    obtain ⟨t, _, rfl⟩ := hc
    simp

/-- C2 (amended): `calc_cop` returns
`(cop_0_35 / lorenz_cop(norm_in, norm_out)) * lorenz_cop(eff_in, eff_out)`,
where `norm_in`/`norm_out` are the log-means of the fixed reference glides
0 °C/−3 °C and 35 °C/30 °C in Kelvin, and each effective temperature is the
log-mean of its glide when the low-side bound is supplied AND nonzero
(Python truthiness: a supplied low-side bound of `0` is treated as absent
and the high bound is used directly). -/
theorem calc_cop_glide_formula (temp_input_high temp_output_high : ℝ)
    (temp_input_low temp_output_low : Option ℝ) (cop_0_35 : ℝ) :
    mtress.calc_cop temp_input_high temp_output_high temp_input_low
        temp_output_low cop_0_35 =
      (cop_0_35 / mtress.lorenz_cop
          (mtress.mean_logarithmic_temperature (mtress.celsius_to_kelvin 0)
            (mtress.celsius_to_kelvin (-3)))
          (mtress.mean_logarithmic_temperature (mtress.celsius_to_kelvin 35)
            (mtress.celsius_to_kelvin 30))) *
        mtress.lorenz_cop
          (mtress.effective_temperature temp_input_high temp_input_low)
          (mtress.effective_temperature temp_output_high temp_output_low) := by
  cases temp_input_low <;> cases temp_output_low <;> rfl

/-- C2 (counterexample): a supplied low-side temperature of `0` is NOT
reduced to the log-mean of its glide — Python's falsy test treats it as
absent.  At `calc_cop(300, 310, temp_input_low=0)` the code returns the
high-bound value, which differs from the claimed log-mean-reduced value. -/
theorem calc_cop_dispatch_claim_false :
    mtress.calc_cop 300 310 (some 0) none 4.6 ≠
      (4.6 / mtress.lorenz_cop
          (mtress.mean_logarithmic_temperature (mtress.celsius_to_kelvin 0)
            (mtress.celsius_to_kelvin (-3)))
          (mtress.mean_logarithmic_temperature (mtress.celsius_to_kelvin 35)
            (mtress.celsius_to_kelvin 30))) *
        mtress.lorenz_cop (mtress.mean_logarithmic_temperature 300 0) 310 := by
  have hL := lorenz_norm_pos
  have h31 : mtress.lorenz_cop 300 310 = 31 := by
    unfold mtress.lorenz_cop
    rw [max_eq_left (by norm_num)]
    norm_num
  have hmlt0 : mtress.mean_logarithmic_temperature 300 0 = 0 := by
    unfold mtress.mean_logarithmic_temperature
    rw [zero_div, Real.log_zero, div_zero]
  have h1 : mtress.lorenz_cop (mtress.mean_logarithmic_temperature 300 0) 310 = 1 := by
    rw [hmlt0]
    unfold mtress.lorenz_cop
    rw [sub_zero, max_eq_left (by norm_num)]
    norm_num
  have hlhs : mtress.calc_cop 300 310 (some 0) none 4.6 =
      (4.6 / mtress.lorenz_cop
          (mtress.mean_logarithmic_temperature (mtress.celsius_to_kelvin 0)
            (mtress.celsius_to_kelvin (-3)))
          (mtress.mean_logarithmic_temperature (mtress.celsius_to_kelvin 35)
            (mtress.celsius_to_kelvin 30))) * mtress.lorenz_cop 300 310 := by
    simp only [mtress.calc_cop, eq_self_iff_true, if_true]
  rw [hlhs, h31, h1]
  intro heq
  have hcpf : (0:ℝ) < 4.6 / mtress.lorenz_cop
      (mtress.mean_logarithmic_temperature (mtress.celsius_to_kelvin 0)
        (mtress.celsius_to_kelvin (-3)))
      (mtress.mean_logarithmic_temperature (mtress.celsius_to_kelvin 35)
        (mtress.celsius_to_kelvin 30)) := div_pos (by norm_num) hL
  have h31eq1 : (31 : ℝ) = 1 := mul_left_cancel₀ (ne_of_gt hcpf) heq
  norm_num at h31eq1

/-- C5 (amended): the true calibration point is the full reference-glide
call: `calc_cop` at the EN14511 glides (source 0 °C/−3 °C, sink
35 °C/30 °C, in Kelvin) returns exactly the calibration constant 4.6; the
correction factor then cancels the reference Lorenz COP. -/
theorem calc_cop_calibration_glide :
    mtress.calc_cop (mtress.celsius_to_kelvin 0) (mtress.celsius_to_kelvin 35)
      (some (mtress.celsius_to_kelvin (-3))) (some (mtress.celsius_to_kelvin 30))
      4.6 = 4.6 := by
  have h3 : mtress.celsius_to_kelvin (-3) ≠ 0 := by
    unfold mtress.celsius_to_kelvin mtress.ZERO_CELSIUS
    norm_num
  have h30 : mtress.celsius_to_kelvin 30 ≠ 0 := by
    unfold mtress.celsius_to_kelvin mtress.ZERO_CELSIUS
    norm_num
  have hL := lorenz_norm_pos
  simp only [mtress.calc_cop, if_neg h3, if_neg h30]
  exact div_mul_cancel₀ 4.6 (ne_of_gt hL)

/-- Second-order Taylor bounds for `-log(1-u)`, from the Mathlib estimate
on the remainder of the logarithm's series. -/
lemma neg_log_one_sub_bounds {u : ℝ} (h0 : 0 < u) (h1 : u < 1) :
    u + u ^ 2 / 2 - u ^ 3 / (1 - u) ≤ -Real.log (1 - u) ∧
      -Real.log (1 - u) ≤ u + u ^ 2 / 2 + u ^ 3 / (1 - u) := by
  have habs : |u| < 1 := by
    rw [abs_of_pos h0]
    exact h1
  have h := Real.abs_log_sub_add_sum_range_le habs 2
  have hsum : (∑ i ∈ Finset.range 2, u ^ (i + 1) / (i + 1)) = u + u ^ 2 / 2 := by
    rw [Finset.sum_range_succ, Finset.sum_range_succ, Finset.sum_range_zero]
    norm_num
  rw [hsum, abs_of_pos h0] at h
  rw [abs_le] at h
  constructor <;> linarith [h.1, h.2]

/-- Numeric bounds for the log-mean of the reference evaporator glide
(0 °C down to −3 °C, in Kelvin): it lies in [271.61, 271.72]. -/
lemma mlt_evaporator_norm_bounds :
    (271.61 : ℝ) ≤ mtress.mean_logarithmic_temperature
        (mtress.celsius_to_kelvin 0) (mtress.celsius_to_kelvin (-3)) ∧
      mtress.mean_logarithmic_temperature (mtress.celsius_to_kelvin 0)
        (mtress.celsius_to_kelvin (-3)) ≤ (271.72 : ℝ) := by
  obtain ⟨hlo, hhi⟩ := neg_log_one_sub_bounds
    (show (0:ℝ) < 20/1821 by norm_num) (show (20/1821:ℝ) < 1 by norm_num)
  have hA : (0.011041 : ℝ) ≤
      20/1821 + (20/1821) ^ 2 / 2 - (20/1821) ^ 3 / (1 - 20/1821) := by norm_num
  have hB : (20/1821:ℝ) + (20/1821) ^ 2 / 2 + (20/1821) ^ 3 / (1 - 20/1821) ≤
      0.011045 := by norm_num
  have hXlo : (0.011041:ℝ) ≤ -Real.log (1 - 20/1821) := le_trans hA hlo
  have hXhi : -Real.log (1 - 20/1821) ≤ (0.011045:ℝ) := le_trans hhi hB
  have hXpos : (0:ℝ) < -Real.log (1 - 20/1821) :=
    lt_of_lt_of_le (by norm_num) hXlo
  have heq : mtress.mean_logarithmic_temperature (mtress.celsius_to_kelvin 0)
      (mtress.celsius_to_kelvin (-3)) = 3 / (-Real.log (1 - 20/1821)) := by
    unfold mtress.mean_logarithmic_temperature mtress.celsius_to_kelvin
      mtress.ZERO_CELSIUS
    rw [show ((273.15:ℝ) + (-3)) / (273.15 + 0) = 1 - 20/1821 by norm_num,
      show ((273.15:ℝ) + (-3)) - (273.15 + 0) = -3 by norm_num,
      div_neg, neg_div]
  rw [heq]
  constructor
  · refine le_trans (show (271.61:ℝ) ≤ 3 / 0.011045 by norm_num) ?_
    exact (div_le_div_left (by norm_num) (by norm_num) hXpos).mpr hXhi
  · refine le_trans ?_ (show (3:ℝ) / 0.011041 ≤ 271.72 by norm_num)
    exact (div_le_div_left (by norm_num) hXpos (by norm_num)).mpr hXlo

/-- Numeric bounds for the log-mean of the reference condenser glide
(35 °C down to 30 °C, in Kelvin): it lies in [305.58, 305.76]. -/
lemma mlt_condenser_norm_bounds :
    (305.58 : ℝ) ≤ mtress.mean_logarithmic_temperature
        (mtress.celsius_to_kelvin 35) (mtress.celsius_to_kelvin 30) ∧
      mtress.mean_logarithmic_temperature (mtress.celsius_to_kelvin 35)
        (mtress.celsius_to_kelvin 30) ≤ (305.76 : ℝ) := by
  obtain ⟨hlo, hhi⟩ := neg_log_one_sub_bounds
    (show (0:ℝ) < 100/6163 by norm_num) (show (100/6163:ℝ) < 1 by norm_num)
  have hA : (0.016353 : ℝ) ≤
      100/6163 + (100/6163) ^ 2 / 2 - (100/6163) ^ 3 / (1 - 100/6163) := by
    norm_num
  have hB : (100/6163:ℝ) + (100/6163) ^ 2 / 2 + (100/6163) ^ 3 / (1 - 100/6163) ≤
      0.016362 := by norm_num
  have hXlo : (0.016353:ℝ) ≤ -Real.log (1 - 100/6163) := le_trans hA hlo
  have hXhi : -Real.log (1 - 100/6163) ≤ (0.016362:ℝ) := le_trans hhi hB
  have hXpos : (0:ℝ) < -Real.log (1 - 100/6163) :=
    lt_of_lt_of_le (by norm_num) hXlo
  have heq : mtress.mean_logarithmic_temperature (mtress.celsius_to_kelvin 35)
      (mtress.celsius_to_kelvin 30) = 5 / (-Real.log (1 - 100/6163)) := by
    unfold mtress.mean_logarithmic_temperature mtress.celsius_to_kelvin
      mtress.ZERO_CELSIUS
    rw [show ((273.15:ℝ) + 30) / (273.15 + 35) = 1 - 100/6163 by norm_num,
      show ((273.15:ℝ) + 30) - (273.15 + 35) = -5 by norm_num,
      div_neg, neg_div]
  rw [heq]
  constructor
  · refine le_trans (show (305.58:ℝ) ≤ 5 / 0.016362 by norm_num) ?_
    exact (div_le_div_left (by norm_num) (by norm_num) hXpos).mpr hXhi
  · refine le_trans ?_ (show (5:ℝ) / 0.016353 ≤ 305.76 by norm_num)
    exact (div_le_div_left (by norm_num) hXpos (by norm_num)).mpr hXlo

/-- A numeric lower bound on the reference Lorenz COP:
`lorenz_cop(norm_in, norm_out) ≥ 8.948`. -/
lemma lorenz_norm_lower_bound :
    (8.948 : ℝ) ≤ mtress.lorenz_cop
      (mtress.mean_logarithmic_temperature (mtress.celsius_to_kelvin 0)
        (mtress.celsius_to_kelvin (-3)))
      (mtress.mean_logarithmic_temperature (mtress.celsius_to_kelvin 35)
        (mtress.celsius_to_kelvin 30)) := by
  obtain ⟨hIlo, hIhi⟩ := mlt_evaporator_norm_bounds
  obtain ⟨hOlo, hOhi⟩ := mlt_condenser_norm_bounds
  unfold mtress.lorenz_cop
  rw [max_eq_left (by linarith)]
  refine le_trans (show (8.948:ℝ) ≤ 305.58/34.15 by norm_num) ?_
  exact div_le_div (by linarith) hOlo (by linarith) (by linarith)

/-- C5 (counterexample): the single-temperature call
`calc_cop(celsius_to_kelvin(0), celsius_to_kelvin(35))` with the default
`cop_0_35 = 4.6` does NOT return approximately 4.6: its value is below
4.53 (it is ≈ 4.505), because the correction factor is calibrated against
the reference GLIDES' log-means while the single-temperature call uses the
raw bounds. -/
theorem calc_cop_single_point_not_calibrated :
    mtress.calc_cop (mtress.celsius_to_kelvin 0) (mtress.celsius_to_kelvin 35)
      none none 4.6 < 4.53 := by
  have hlow := lorenz_norm_lower_bound
  have hL := lorenz_norm_pos
  have hact : mtress.lorenz_cop (mtress.celsius_to_kelvin 0)
      (mtress.celsius_to_kelvin 35) = 308.15/35 := by
    unfold mtress.lorenz_cop mtress.celsius_to_kelvin mtress.ZERO_CELSIUS
    rw [max_eq_left (by norm_num)]
    norm_num
  simp only [mtress.calc_cop]
  rw [hact]
  have h1 : 4.6 / mtress.lorenz_cop
      (mtress.mean_logarithmic_temperature (mtress.celsius_to_kelvin 0)
        (mtress.celsius_to_kelvin (-3)))
      (mtress.mean_logarithmic_temperature (mtress.celsius_to_kelvin 35)
        (mtress.celsius_to_kelvin 30)) ≤ 4.6 / 8.948 :=
    (div_le_div_left (by norm_num) hL (by norm_num)).mpr hlow
  refine lt_of_le_of_lt (mul_le_mul_of_nonneg_right h1 (by norm_num)) ?_
  norm_num

/-- C8: `carnot_efficiency(t_in, t_out)` equals
`t_out / max(t_out - t_in, 1e-3)`; the clamped denominator is always at
least 1e-3, so the division never blows up — multiplying back by the
denominator recovers `t_out` exactly for ALL inputs, including
`t_out ≤ t_in` — and the identically-defined `mtress.lorenz_cop` satisfies
the same formula and agrees with `carnot_efficiency` on rational inputs. -/
theorem carnot_lorenz_clamp_safe (t_in t_out : ℚ) (r_in r_out : ℝ) :
    meta_model.carnot_efficiency t_in t_out =
      t_out / max (t_out - t_in) (1 / 1000) ∧
    (1 / 1000 : ℚ) ≤ max (t_out - t_in) (1 / 1000) ∧
    meta_model.carnot_efficiency t_in t_out * max (t_out - t_in) (1 / 1000)
      = t_out ∧
    mtress.lorenz_cop r_in r_out = r_out / max (r_out - r_in) (1 / 1000) ∧
    mtress.lorenz_cop (t_in : ℝ) (t_out : ℝ) =
      ((meta_model.carnot_efficiency t_in t_out : ℚ) : ℝ) := by
  refine ⟨rfl, le_max_right _ _, ?_, rfl, ?_⟩
  · unfold meta_model.carnot_efficiency
    exact div_mul_cancel₀ _
      (ne_of_gt (lt_of_lt_of_le (by norm_num) (le_max_right _ _)))
  · unfold mtress.lorenz_cop meta_model.carnot_efficiency
    push_cast
    norm_num

/-- The function `digit_char` is injective on digits below 10. -/
lemma digit_char_inj_lt {a b : Nat} (ha : a < 10) (hb : b < 10)
    (h : layered_heat.digit_char a = layered_heat.digit_char b) : a = b := by
  have key : ∀ x y : Fin 10,
      layered_heat.digit_char x.val = layered_heat.digit_char y.val → x = y := by
    decide
  exact congrArg Fin.val (key ⟨a, ha⟩ ⟨b, hb⟩ h)

/-- No digit character is a minus sign. -/
lemma digit_char_ne_dash {d : Nat} (hd : d < 10) :
    layered_heat.digit_char d ≠ '-' := by
  have key : ∀ x : Fin 10, layered_heat.digit_char x.val ≠ '-' := by decide
  exact key ⟨d, hd⟩

/-- Mapping `digit_char` over lists of digits below 10 is injective. -/
lemma map_digit_char_inj : ∀ {l₁ l₂ : List Nat}, (∀ d ∈ l₁, d < 10) →
    (∀ d ∈ l₂, d < 10) →
    l₁.map layered_heat.digit_char = l₂.map layered_heat.digit_char →
    l₁ = l₂ := by
  intro l₁
  induction l₁ with
  | nil =>
    intro l₂ _ _ h
    cases l₂ with
    | nil => rfl
    | cons b t => simp at h
  | cons a t ih =>
    intro l₂ h₁ h₂ h
    cases l₂ with
    | nil => simp at h
    | cons b t₂ =>
      simp only [List.map_cons, List.cons.injEq] at h
      have ha : a < 10 := h₁ a (List.mem_cons_self a t)
      have hb : b < 10 := h₂ b (List.mem_cons_self b t₂)
      rw [digit_char_inj_lt ha hb h.1,
        ih (fun d hd => h₁ d (List.mem_cons_of_mem a hd))
          (fun d hd => h₂ d (List.mem_cons_of_mem b hd)) h.2]

/-- The digit string of a nonzero number is never `"0"`. -/
lemma nat_decimal_aux_ne_zero {n : Nat} (hn : n ≠ 0)
    (h : ((Nat.digits 10 n).reverse.map layered_heat.digit_char).asString
      = "0") : False := by
  have hl : (Nat.digits 10 n).reverse.map layered_heat.digit_char = ['0'] :=
    congrArg String.data h
  have hrev : (Nat.digits 10 n).reverse = [0] := by
    refine map_digit_char_inj
      (fun d hd => Nat.digits_lt_base (by norm_num) (List.mem_reverse.mp hd))
      (fun d hd => ?_) hl
    simp only [List.mem_singleton] at hd
    omega
  have hd : Nat.digits 10 n = [0] := by
    have := congrArg List.reverse hrev
    simpa using this
  have ho := Nat.ofDigits_digits 10 n
  rw [hd] at ho
  simp [Nat.ofDigits] at ho
  exact hn ho.symm

/-- The map `nat_decimal` is injective — two numbers with the same decimal string
are equal. -/
lemma nat_decimal_inj {m n : Nat}
    (h : layered_heat.nat_decimal m = layered_heat.nat_decimal n) : m = n := by
  unfold layered_heat.nat_decimal at h
  by_cases hm : m = 0 <;> by_cases hn : n = 0
  · rw [hm, hn]
  · rw [if_pos hm, if_neg hn] at h
    exact (nat_decimal_aux_ne_zero hn h.symm).elim
  · rw [if_neg hm, if_pos hn] at h
    exact (nat_decimal_aux_ne_zero hm h).elim
  · rw [if_neg hm, if_neg hn] at h
    have hl : (Nat.digits 10 m).reverse.map layered_heat.digit_char =
        (Nat.digits 10 n).reverse.map layered_heat.digit_char :=
      congrArg String.data h
    have hrev := map_digit_char_inj
      (fun d hd => Nat.digits_lt_base (by norm_num) (List.mem_reverse.mp hd))
      (fun d hd => Nat.digits_lt_base (by norm_num) (List.mem_reverse.mp hd))
      hl
    have hdig : Nat.digits 10 m = Nat.digits 10 n := by
      have := congrArg List.reverse hrev
      simpa using this
    have := congrArg (Nat.ofDigits 10) hdig
    rwa [Nat.ofDigits_digits, Nat.ofDigits_digits] at this

/-- A decimal digit string never contains a minus sign. -/
lemma nat_decimal_no_dash (n : Nat) :
    '-' ∉ (layered_heat.nat_decimal n).data := by
  unfold layered_heat.nat_decimal
  split
  · decide
  · intro hmem
    have : '-' ∈ (Nat.digits 10 n).reverse.map layered_heat.digit_char := hmem
    obtain ⟨d, hd, hchar⟩ := List.mem_map.mp this
    exact digit_char_ne_dash
      (Nat.digits_lt_base (by norm_num) (List.mem_reverse.mp hd)) hchar

/-- Rounding a non-negative rational half-to-even gives a non-negative
integer. -/
lemma round_half_even_nonneg {q : ℚ} (h : 0 ≤ q) :
    0 ≤ layered_heat.round_half_even q := by
  unfold layered_heat.round_half_even
  have hf : (0:ℤ) ≤ ⌊q⌋ := Int.floor_nonneg.mpr h
  dsimp only
  split
  · exact hf
  · split
    · omega
    · split <;> omega

/-- C9 (amended): two temperature levels receive the same storage label
exactly when they agree in sign and in `.0f`-rounded absolute value.  In
particular label derivation is injective on levels whose rounded display
values differ — but distinct levels that round to the same integer (e.g.
40.2 and 40.4) collide, so pairwise-distinct levels alone do NOT guarantee
pairwise-distinct labels. -/
theorem storage_label_eq_iff (t₁ t₂ : ℚ) :
    layered_heat.storage_label t₁ = layered_heat.storage_label t₂ ↔
      ((t₁ < 0 ↔ t₂ < 0) ∧
        layered_heat.round_half_even |t₁| =
          layered_heat.round_half_even |t₂|) := by
  have hdash : ("-" : String).data = ['-'] := rfl
  have hemp : ("" : String).data = [] := rfl
  constructor
  · intro h
    unfold layered_heat.storage_label layered_heat.format_f0 at h
    by_cases h₁ : t₁ < 0 <;> by_cases h₂ : t₂ < 0
    · rw [if_pos h₁, if_pos h₂] at h
      have hdata := congrArg String.data h
      simp only [String.data_append] at hdata
      have hnd := String.ext (List.append_cancel_left
        (List.append_cancel_left hdata))
      have htoNat := nat_decimal_inj hnd
      have hn₁ := round_half_even_nonneg (abs_nonneg t₁)
      have hn₂ := round_half_even_nonneg (abs_nonneg t₂)
      exact ⟨iff_of_true h₁ h₂, by omega⟩
    · rw [if_pos h₁, if_neg h₂] at h
      have hdata := congrArg String.data h
      simp only [String.data_append] at hdata
      have hfmt := List.append_cancel_left hdata
      simp only [List.singleton_append, List.nil_append] at hfmt
      have hmem : '-' ∈ (layered_heat.nat_decimal
          (layered_heat.round_half_even |t₂|).toNat).data := by
        rw [← hfmt]
        exact List.mem_cons_self _ _
      exact (nat_decimal_no_dash _ hmem).elim
    · rw [if_neg h₁, if_pos h₂] at h
      have hdata := congrArg String.data h
      simp only [String.data_append] at hdata
      have hfmt := List.append_cancel_left hdata
      simp only [List.singleton_append, List.nil_append] at hfmt
      have hmem : '-' ∈ (layered_heat.nat_decimal
          (layered_heat.round_half_even |t₁|).toNat).data := by
        rw [hfmt]
        exact List.mem_cons_self _ _
      exact (nat_decimal_no_dash _ hmem).elim
    · rw [if_neg h₁, if_neg h₂] at h
      have hdata := congrArg String.data h
      simp only [String.data_append] at hdata
      have hnd := String.ext (List.append_cancel_left
        (List.append_cancel_left hdata))
      have htoNat := nat_decimal_inj hnd
      have hn₁ := round_half_even_nonneg (abs_nonneg t₁)
      have hn₂ := round_half_even_nonneg (abs_nonneg t₂)
      exact ⟨iff_of_false h₁ h₂, by omega⟩
  · intro hpair
    obtain ⟨hsign, hround⟩ := hpair
    unfold layered_heat.storage_label layered_heat.format_f0
    rw [hround]
    by_cases h₁ : t₁ < 0
    · rw [if_pos h₁, if_pos (hsign.mp h₁)]
    · rw [if_neg h₁, if_neg (fun hh => h₁ (hsign.mpr hh))]

/-- C9 (counterexample): the pairwise-distinct levels 40.2 and 40.4 both
format to the display string 40 under `.0f` rounding, so their storage labels coincide —
label derivation is NOT injective across a set of pairwise-distinct
levels. -/
theorem storage_label_collision :
    (40.2 : ℚ) ≠ (40.4 : ℚ) ∧
      layered_heat.storage_label (40.2 : ℚ) =
        layered_heat.storage_label (40.4 : ℚ) := by
  refine ⟨by norm_num, ?_⟩
  unfold layered_heat.storage_label layered_heat.format_f0
  have h1 : layered_heat.round_half_even |(40.2 : ℚ)| = 40 := by
    unfold layered_heat.round_half_even
    rw [abs_of_pos (by norm_num : (0:ℚ) < 40.2)]
    norm_num
  have h2 : layered_heat.round_half_even |(40.4 : ℚ)| = 40 := by
    unfold layered_heat.round_half_even
    rw [abs_of_pos (by norm_num : (0:ℚ) < 40.4)]
    norm_num
  rw [h1, h2, if_neg (by norm_num : ¬ (40.2 : ℚ) < 0),
    if_neg (by norm_num : ¬ (40.4 : ℚ) < 0)]
